import Mathlib

/-!
Verification development for `untd` (src/main.rs): a shallow embedding of the
time-adjustment parser, the format resolver, the Japanese-weekday substitution
and the `main` orchestration, together with theorems settling the spec claims.

Machine integers are modelled as `Int`/`Nat` with explicit bounds where the
Rust code (or the chrono library it calls) checks or overflows them.
-/

/-- The largest value of Rust's `i64`, `2^63 - 1`. -/
def i64MaxNat : Nat := 9223372036854775807

/-- `i64::MAX` as an integer. -/
def i64Max : Int := 9223372036854775807

/-- `i64::MIN` as an integer. -/
def i64Min : Int := -9223372036854775808

/-- A chrono `Duration` as stored by this program: a signed number of seconds.
Every duration the program builds is a whole number of seconds, so the
seconds/nanos pair of chrono collapses to one integer.  chrono bounds a
`Duration` to at most `i64::MAX` milliseconds in absolute value. -/
abbrev Duration := Int

/-- Model of Rust `i64::checked_mul`: the product when it fits in an `i64`. -/
def checked_mul (a b : Int) : Option Int :=
  if i64Min ≤ a * b ∧ a * b ≤ i64Max then some (a * b) else none

/-- Model of `chrono::Duration::seconds`: the duration when it is within
chrono's bound of `±i64::MAX` milliseconds, otherwise `none` standing for the
panic chrono raises ("Duration::seconds out of bounds"). -/
def Duration.seconds (v : Int) : Option Duration :=
  if -i64Max ≤ v * 1000 ∧ v * 1000 ≤ i64Max then some v else none

/-- Model of `chrono::Duration::minutes`: `seconds(minutes.checked_mul(60))`,
panicking (`none`) when the multiplication overflows or the result is out of
chrono's bound. -/
def Duration.minutes (v : Int) : Option Duration :=
  (checked_mul v 60).bind Duration.seconds

/-- Model of `chrono::Duration::hours`: `seconds(hours.checked_mul(3600))`. -/
def Duration.hours (v : Int) : Option Duration :=
  (checked_mul v 3600).bind Duration.seconds

/-- Model of `chrono::Duration::days`: `seconds(days.checked_mul(86400))`. -/
def Duration.days (v : Int) : Option Duration :=
  (checked_mul v 86400).bind Duration.seconds

/-- Model of `chrono::Duration::weeks`: `seconds(weeks.checked_mul(604800))`. -/
def Duration.weeks (v : Int) : Option Duration :=
  (checked_mul v 604800).bind Duration.seconds

/-- The numeric value of a run of decimal digit characters, accumulated left
to right exactly as Rust's integer parsing does. -/
def digitsToNat (l : List Char) : Nat :=
  l.foldl (fun acc c => acc * 10 + (c.toNat - 48)) 0

/-- Model of Rust `str::parse::<i64>` restricted to the non-empty all-digit
strings the parser feeds it: the value when it fits in an `i64`, `none` on
overflow (the `Err` case whose message is "number too large to fit in target
type"). -/
def parse_i64 (l : List Char) : Option Int :=
  if digitsToNat l ≤ i64MaxNat then some (digitsToNat l : Int) else none

/-- The sign handling of `parse_time_adjustment` (main.rs lines 119-125):
`-` sets negative and drops one character, `+` drops one character, anything
else leaves the string unchanged. -/
def strip_sign (l : List Char) : Bool × List Char :=
  if l.head? = some '-' then (true, l.tail)
  else if l.head? = some '+' then (false, l.tail)
  else (false, l)

/-- The unit dispatch of `parse_time_adjustment` (main.rs lines 148-155):
match on the collected unit characters and scale the signed value. -/
def unit_dispatch (unit_part : List Char) (value : Int) : Option (Except String Duration) :=
  match unit_part with
  | ['s'] => Option.map Except.ok (Duration.seconds value)
  | ['m'] => Option.map Except.ok (Duration.minutes value)
  | ['h'] => Option.map Except.ok (Duration.hours value)
  | ['d'] => Option.map Except.ok (Duration.days value)
  | ['w'] => Option.map Except.ok (Duration.weeks value)
  | _ => some (Except.error ("Unknown time unit \x27" ++ String.mk unit_part ++
      "\x27. Use s (seconds), m (minutes), h (hours), d (days), or w (weeks)"))

/-- Embedding of `parse_time_adjustment` (main.rs lines 113-156).  The result
is `none` when the Rust program would panic (inside chrono's checked duration
constructors), `some (Except.error e)` for the returned errors and
`some (Except.ok d)` for a successfully parsed duration of `d` seconds. -/
def parse_time_adjustment (adj : String) : Option (Except String Duration) :=
  if adj.data = [] then some (Except.error "Empty time adjustment string")
  else
    let is_negative := (strip_sign adj.data).1
    let adj_chars := (strip_sign adj.data).2
    let numeric_part := adj_chars.filter (fun c => c.isDigit)
    let unit_part := adj_chars.filter (fun c => !c.isDigit)
    if numeric_part = [] then
      some (Except.error ("Missing numeric part in \x27" ++ adj ++ "\x27"))
    else
      match parse_i64 numeric_part with
      | none => some (Except.error "Invalid number: number too large to fit in target type")
      | some v =>
        let value := if is_negative then -v else v
        unit_dispatch unit_part value

/-- Embedding of `get_format_string` (main.rs lines 5-15). -/
def get_format_string (format_option : Option String) : String :=
  match format_option with
  | none => "%Y-%m-%d"
  | some "iso" => "%Y-%m-%dT%H:%M:%S%z"
  | some "jp" => "%Y年%m月%d日"
  | some "jpwd" => "%Y年%m月%d日(%w)"
  | some "jphm" => "%Y年%m月%d日 %H時%M分"
  | some "jphms" => "%Y年%m月%d日 %H時%M分%S秒"
  | some fmt => fmt

/-- Embedding of `get_japanese_weekday` (main.rs lines 19-30). -/
def get_japanese_weekday (weekday_num : Char) : String :=
  match weekday_num with
  | '0' => "日"
  | '1' => "月"
  | '2' => "火"
  | '3' => "水"
  | '4' => "木"
  | '5' => "金"
  | '6' => "土"
  | _ => "?"

/-- Embedding of the post-render weekday substitution in `main`
(main.rs lines 220-240): an indexed fold over the characters of the rendered
string.  A digit preceded by `(` and followed by `)` (the `i + 1 <
formatted.len()` test compares the character index against the *byte* length,
as the Rust does) is replaced by its Japanese weekday name; a `)` immediately
preceded by `(` is dropped; every other character is copied. -/
def weekday_substitute (formatted : String) : String :=
  let cs := formatted.data
  let byteLen := formatted.utf8ByteSize
  cs.enum.foldl (fun result ic =>
    if ic.1 > 0 ∧ cs.get? (ic.1 - 1) = some '(' ∧ ic.2.isDigit = true ∧
        ic.1 + 1 < byteLen ∧ cs.get? (ic.1 + 1) = some ')' then
      result ++ get_japanese_weekday ic.2
    else if ¬ (ic.1 > 0 ∧ cs.get? (ic.1 - 1) = some '(' ∧ cs.get? ic.1 = some ')') then
      result.push ic.2
    else result) ""

/-- Days since 1970-01-01 of a civil date (Howard Hinnant's algorithm, the
same calendar arithmetic chrono implements).  Used to state chrono's
representable timestamp range and to render dates. -/
def days_from_civil (y : Int) (m d : Nat) : Int :=
  let y2 := if m ≤ 2 then y - 1 else y
  let era := Int.ediv y2 400
  let yoe := (y2 - era * 400).toNat
  let doy := (153 * (if m > 2 then m - 3 else m + 9) + 2) / 5 + d - 1
  let doe := yoe * 365 + yoe / 4 - yoe / 100 + doy
  era * 146097 + (doe : Int) - 719468

/-- Civil date (year, month, day) of a count of days since 1970-01-01
(Howard Hinnant's algorithm, matching chrono's calendar). -/
def civil_from_days (z0 : Int) : Int × Nat × Nat :=
  let z := z0 + 719468
  let era := Int.ediv z 146097
  let doe := (z - era * 146097).toNat
  let yoe := (doe - doe / 1460 + doe / 36524 - doe / 146096) / 365
  let y := (yoe : Int) + era * 400
  let doy := doe - (365 * yoe + yoe / 4 - yoe / 100)
  let mp := (5 * doy + 2) / 153
  let d := doy - (153 * mp + 2) / 5 + 1
  let m := if mp < 10 then mp + 3 else mp - 9
  (if m ≤ 2 then y + 1 else y, m, d)

/-- A number rendered with at least two decimal digits (chrono's zero-padded
`%m`, `%d`, `%H`, `%M`, `%S`). -/
def pad2 (n : Nat) : String :=
  if n < 10 then "0" ++ Nat.repr n else Nat.repr n

/-- A number rendered with at least four decimal digits (chrono's `%Y`). -/
def pad4 (n : Nat) : String :=
  if n < 10 then "000" ++ Nat.repr n
  else if n < 100 then "00" ++ Nat.repr n
  else if n < 1000 then "0" ++ Nat.repr n
  else Nat.repr n

/-- Model of one chrono strftime directive, rendered for the instant `t`
(seconds since epoch) viewed at fixed UTC offset `offset` seconds: the
directives used by this program's patterns (`%Y %m %d %H %M %S %z %w`).  An
unused directive is echoed verbatim; none of the program's patterns contain
one. -/
def render_directive (c : Char) (t offset : Int) : String :=
  let localSecs := t + offset
  let days := Int.ediv localSecs 86400
  let sod := (Int.emod localSecs 86400).toNat
  match c with
  | 'Y' =>
    let y := (civil_from_days days).1
    if y < 0 then "-" ++ pad4 y.natAbs else pad4 y.toNat
  | 'm' => pad2 (civil_from_days days).2.1
  | 'd' => pad2 (civil_from_days days).2.2
  | 'H' => pad2 (sod / 3600)
  | 'M' => pad2 (sod % 3600 / 60)
  | 'S' => pad2 (sod % 60)
  | 'z' => (if offset < 0 then "-" else "+") ++
      pad2 (offset.natAbs / 3600) ++ pad2 (offset.natAbs % 3600 / 60)
  | 'w' => Nat.repr (Int.emod (days + 4) 7).toNat
  | c => String.mk ['%', c]

/-- Model of chrono's pattern walk: `%` introduces a directive, every other
character is copied literally. -/
def render_chars : List Char → Int → Int → List Char
  | [], _, _ => []
  | '%' :: c :: rest, t, off => (render_directive c t off).data ++ render_chars rest t off
  | c :: rest, t, off => c :: render_chars rest t off

/-- Model of `specific_datetime.format(format_str).to_string()` (main.rs line
217): render the pattern for instant `t` at UTC offset `offset` seconds. -/
def format_datetime (fmt : String) (t offset : Int) : String :=
  String.mk (render_chars fmt.data t offset)

/-- Embedding of the `Args` struct (main.rs lines 158-175), with the clap
defaults: timezone defaults to "JST", copy to true, format and adjust to
absent. -/
structure Args where
  timestamp : Option Int
  timezone : String := "JST"
  copy : Bool := true
  format : Option String := none
  adjust : Option String := none
deriving DecidableEq

/-- The timezone dispatch of `main` (main.rs lines 205-212) as the fixed UTC
offset of the zone in seconds: UTC is +0, Asia/Tokyo is +9:00 (its constant
offset for every instant since 1951, modelling `chrono_tz`); any other name is
rejected. -/
def tz_offset (tz : String) : Option Int :=
  match tz with
  | "UTC" => some 0
  | "JST" => some 32400
  | _ => none

/-- The rendering tail of `main` (main.rs lines 215-243): resolve the format,
render it, and apply the weekday substitution exactly when the format argument
was `jpwd`. -/
def render_output (format : Option String) (datetime offset : Int) : String :=
  let format_str := get_format_string format
  let formatted := format_datetime format_str datetime offset
  if format = some "jpwd" then weekday_substitute formatted else formatted

/-- The observable outcome of one run of `main`: the line printed on success,
or the message printed before `std::process::exit(1)`.  The clipboard write
(main.rs lines 247-258) happens after the output line is printed and never
changes it or the exit code, so it is not part of the model. -/
inductive RunResult where
  | ok (output : String)
  | exit1 (message : String)
deriving DecidableEq

/-- The smallest timestamp chrono can represent (midnight of the minimum
`NaiveDate`, year -262144). -/
def MIN_TS : Int := days_from_civil (-262144) 1 1 * 86400

/-- The largest timestamp chrono can represent (last second of the maximum
`NaiveDate`, year 262143). -/
def MAX_TS : Int := days_from_civil 262143 12 31 * 86400 + 86399

/-- The tail of `main` after the instant is fixed (main.rs lines 205-245):
timezone validation then rendering. -/
def main_after_adjust (args : Args) (datetime : Int) : Option RunResult :=
  match tz_offset args.timezone with
  | none => some (RunResult.exit1 "Invalid timezone")
  | some offset => some (RunResult.ok (render_output args.format datetime offset))

/-- The adjustment step of `main` (main.rs lines 192-203): parse the
adjustment if present and add it to the instant.  `none` models a panic,
either inside the parser's duration constructors or in chrono's `DateTime +
Duration` when the sum leaves the representable range. -/
def main_after_instant (args : Args) (datetime : Int) : Option RunResult :=
  match args.adjust with
  | none => main_after_adjust args datetime
  | some adj_str =>
    match parse_time_adjustment adj_str with
    | none => none
    | some (Except.error e) => some (RunResult.exit1 ("Error in time adjustment: " ++ e))
    | some (Except.ok duration) =>
      let dt2 := datetime + duration
      if MIN_TS ≤ dt2 ∧ dt2 ≤ MAX_TS then main_after_adjust args dt2 else none

/-- Embedding of `main` (main.rs lines 177-245).  `now` supplies the current
instant used when no timestamp argument is given (`Utc::now()`). -/
def main_run (args : Args) (now : Int) : Option RunResult :=
  match args.timestamp with
  | some dt =>
    if MIN_TS ≤ dt ∧ dt ≤ MAX_TS then main_after_instant args dt
    else some (RunResult.exit1 "Invalid timestamp")
  | none => main_after_instant args now

/-- Claim C4: `parse_time_adjustment` fails on `""`, `"s"`, `"10"` and
`"10x"`, each with its own specific descriptive message (empty input, missing
numeric part, missing unit, unknown unit). -/
theorem C4_parse_error_cases :
    parse_time_adjustment "" = some (Except.error "Empty time adjustment string") ∧
    parse_time_adjustment "s" = some (Except.error "Missing numeric part in \x27s\x27") ∧
    parse_time_adjustment "10" = some (Except.error
      ("Unknown time unit \x27\x27. Use s (seconds), m (minutes), h (hours), d (days), or w (weeks)")) ∧
    parse_time_adjustment "10x" = some (Except.error
      ("Unknown time unit \x27x\x27. Use s (seconds), m (minutes), h (hours), d (days), or w (weeks)")) := by
  refine ⟨rfl, rfl, rfl, rfl⟩

/-- Claim C7: end-to-end on timestamp 0 in UTC: the default format prints
`1970-01-01`, format `iso` prints `1970-01-01T00:00:00+0000`, and adjustment
`1d` with the default format prints `1970-01-02`. -/
theorem C7_end_to_end_epoch :
    main_run { timestamp := some 0, timezone := "UTC" } 0 =
      some (RunResult.ok "1970-01-01") ∧
    main_run { timestamp := some 0, timezone := "UTC", format := some "iso" } 0 =
      some (RunResult.ok "1970-01-01T00:00:00+0000") ∧
    main_run { timestamp := some 0, timezone := "UTC", adjust := some "1d" } 0 =
      some (RunResult.ok "1970-01-02") := by
  refine ⟨by decide, by decide, by decide⟩

/-- Claim C10: the clap defaults fix what the spec leaves open: an absent
timezone flag means "JST", an absent copy flag means the clipboard copy is
enabled, and an invocation omitting both behaves exactly like one passing
them explicitly. -/
theorem C10_defaults (ts : Option Int) (fmt adj : Option String) (now : Int) :
    ({ timestamp := ts, format := fmt, adjust := adj } : Args).timezone = "JST" ∧
    ({ timestamp := ts, format := fmt, adjust := adj } : Args).copy = true ∧
    main_run { timestamp := ts, format := fmt, adjust := adj } now =
      main_run { timestamp := ts, timezone := "JST", copy := true,
                 format := fmt, adjust := adj } now := by
  exact ⟨rfl, rfl, rfl⟩

/-- Claim C5: format resolution is total: `none` gives the date-only default,
each of the five keywords gives its fixed pattern, and every other string is
returned verbatim. -/
theorem C5_format_resolution :
    get_format_string none = "%Y-%m-%d" ∧
    get_format_string (some "iso") = "%Y-%m-%dT%H:%M:%S%z" ∧
    get_format_string (some "jp") = "%Y年%m月%d日" ∧
    get_format_string (some "jpwd") = "%Y年%m月%d日(%w)" ∧
    get_format_string (some "jphm") = "%Y年%m月%d日 %H時%M分" ∧
    get_format_string (some "jphms") = "%Y年%m月%d日 %H時%M分%S秒" ∧
    ∀ s : String, s ∉ (["iso", "jp", "jpwd", "jphm", "jphms"] : List String) →
      get_format_string (some s) = s := by
  refine ⟨rfl, rfl, rfl, rfl, rfl, rfl, ?_⟩
  intro s hs
  simp only [List.mem_cons, List.not_mem_nil, or_false, not_or] at hs
  obtain ⟨h1, h2, h3, h4, h5⟩ := hs
  unfold get_format_string
  split <;> simp_all

/-- Closed witness for claim C5: the custom pattern `%H:%M:%S` is not a
keyword and passes through unchanged. -/
theorem C5_format_resolution_witness :
    get_format_string (some "%H:%M:%S") = "%H:%M:%S" :=
  C5_format_resolution.2.2.2.2.2.2 "%H:%M:%S" (by decide)

/-- Counterexample to claim C2: the substitution replaces the digit of
`"(3)"` with the weekday name but does *not* remove the enclosing
parentheses: the output is `"(水)"`, not `"水"`. -/
theorem C2_counterexample_parens_kept :
    weekday_substitute "(3)" = "(水)" ∧ weekday_substitute "(3)" ≠ "水" := by
  refine ⟨by decide, by decide⟩

/-- Claim C2 as amended: when the format keyword is `jpwd`, the post-render
substitution replaces every parenthesized single digit with the localized
weekday name from the fixed table (0 = 日 through 6 = 土, any other digit
becoming the sentinel `?`), with the enclosing parentheses *retained* around
the substituted name. -/
theorem C2_weekday_substitution_amended :
    (∀ d : Char,
      d ∈ (['0', '1', '2', '3', '4', '5', '6', '7', '8', '9'] : List Char) →
      weekday_substitute (String.mk ['(', d, ')']) =
        "(" ++ get_japanese_weekday d ++ ")") ∧
    get_japanese_weekday '0' = "日" ∧ get_japanese_weekday '1' = "月" ∧
    get_japanese_weekday '2' = "火" ∧ get_japanese_weekday '3' = "水" ∧
    get_japanese_weekday '4' = "木" ∧ get_japanese_weekday '5' = "金" ∧
    get_japanese_weekday '6' = "土" ∧ get_japanese_weekday '9' = "?" ∧
    weekday_substitute "2024年05月01日(3)" = "2024年05月01日(水)" ∧
    weekday_substitute "(9)" = "(?)" := by
  refine ⟨?_, rfl, rfl, rfl, rfl, rfl, rfl, rfl, rfl, by decide, by decide⟩
  intro d hd
  fin_cases hd <;> decide

/-- Closed witness for the amended claim C2: the digit 3 in a parenthesized
weekday placeholder becomes Wednesday's name, parentheses retained. -/
theorem C2_weekday_substitution_amended_witness :
    weekday_substitute (String.mk ['(', '3', ')']) =
      "(" ++ get_japanese_weekday '3' ++ ")" :=
  C2_weekday_substitution_amended.1 '3' (by decide)

/-- Claim C8: the weekday substitution runs only when the format argument was
`jpwd`: for every other format value (including `none` and any custom
pattern) the rendered string is output exactly as the renderer produced it;
and for `jpwd` the substitution is applied to the rendered string. -/
theorem C8_substitution_only_for_jpwd :
    (∀ (fmt : Option String) (t off : Int), fmt ≠ some "jpwd" →
      render_output fmt t off = format_datetime (get_format_string fmt) t off) ∧
    (∀ t off : Int,
      render_output (some "jpwd") t off =
        weekday_substitute (format_datetime (get_format_string (some "jpwd")) t off)) ∧
    render_output (some "(3)") 0 0 = "(3)" := by
  refine ⟨?_, ?_, by decide⟩
  · intro fmt t off h
    simp only [render_output, if_neg h]
  · intro t off
    simp [render_output]

/-- Closed witness for claim C8: the custom pattern `(3)` renders to a string
containing a parenthesized digit, yet no substitution is performed. -/
theorem C8_substitution_only_for_jpwd_witness :
    render_output (some "(3)") 0 0 =
      format_datetime (get_format_string (some "(3)")) 0 0 :=
  C8_substitution_only_for_jpwd.1 (some "(3)") 0 0 (by decide)

theorem filter_digits_all (ds : List Char) (hds : ∀ c ∈ ds, c.isDigit = true) :
    ds.filter (fun c => c.isDigit) = ds :=
  List.filter_eq_self.mpr hds

theorem filter_nondigits_all (ds : List Char) (hds : ∀ c ∈ ds, c.isDigit = true) :
    ds.filter (fun c => !c.isDigit) = [] := by
  rw [List.filter_eq_nil_iff]
  intro c hc
  simp [hds c hc]

theorem parse_spine (ds : List Char) (u : Char) (hne : ds ≠ [])
    (hds : ∀ c ∈ ds, c.isDigit = true) (hu : u.isDigit = false) :
    parse_time_adjustment (String.mk (ds ++ [u])) =
      (match parse_i64 ds with
       | none => some (Except.error "Invalid number: number too large to fit in target type")
       | some v => unit_dispatch [u] v) ∧
    parse_time_adjustment (String.mk ('-' :: (ds ++ [u]))) =
      (match parse_i64 ds with
       | none => some (Except.error "Invalid number: number too large to fit in target type")
       | some v => unit_dispatch [u] (-v)) ∧
    parse_time_adjustment (String.mk ('+' :: (ds ++ [u]))) =
      parse_time_adjustment (String.mk (ds ++ [u])) := by
  obtain ⟨d0, ds', rfl⟩ := List.exists_cons_of_ne_nil hne
  have hd0 : d0.isDigit = true := hds d0 (by simp)
  have hd0m : d0 ≠ '-' := by
    intro h; rw [h] at hd0; exact absurd hd0 (by decide)
  have hd0p : d0 ≠ '+' := by
    intro h; rw [h] at hd0; exact absurd hd0 (by decide)
  have hfil1 : ((d0 :: ds') ++ [u]).filter (fun c => c.isDigit) = d0 :: ds' := by
    rw [List.filter_append, filter_digits_all _ hds]
    simp [List.filter, hu]
  have hfil2 : ((d0 :: ds') ++ [u]).filter (fun c => !c.isDigit) = [u] := by
    rw [List.filter_append, filter_nondigits_all _ hds]
    simp [List.filter, hu]
  have hstrip : strip_sign ((d0 :: ds') ++ [u]) = (false, (d0 :: ds') ++ [u]) := by
    unfold strip_sign
    rw [List.cons_append, List.head?_cons]
    simp [hd0m, hd0p]
  have h1 : parse_time_adjustment (String.mk ((d0 :: ds') ++ [u])) =
      (match parse_i64 (d0 :: ds') with
       | none => some (Except.error "Invalid number: number too large to fit in target type")
       | some v => unit_dispatch [u] v) := by
    unfold parse_time_adjustment
    rw [if_neg (by simp)]
    simp only [hstrip, hfil1, hfil2]
    rw [if_neg (by simp)]
    cases hp : parse_i64 (d0 :: ds') <;> simp [hp]
  refine ⟨h1, ?_, ?_⟩
  · unfold parse_time_adjustment
    rw [if_neg (by simp)]
    have hstrip2 : strip_sign ('-' :: ((d0 :: ds') ++ [u])) = (true, (d0 :: ds') ++ [u]) := by
      unfold strip_sign
      simp
    simp only [hstrip2, hfil1, hfil2]
    rw [if_neg (by simp)]
    cases hp : parse_i64 (d0 :: ds') <;> simp [hp]
  · rw [h1]
    unfold parse_time_adjustment
    rw [if_neg (by simp)]
    have hstrip3 : strip_sign ('+' :: ((d0 :: ds') ++ [u])) = (false, (d0 :: ds') ++ [u]) := by
      unfold strip_sign
      simp
    simp only [hstrip3, hfil1, hfil2]
    rw [if_neg (by simp)]
    cases hp : parse_i64 (d0 :: ds') <;> simp [hp]

theorem unit_dispatch_ok (u : Char) (mult : Nat)
    (htab : (u, mult) ∈ ([('s', 1), ('m', 60), ('h', 3600), ('d', 86400),
      ('w', 604800)] : List (Char × Nat)))
    (v : Int) (hb : -i64Max ≤ v * (mult : Int) * 1000 ∧ v * (mult : Int) * 1000 ≤ i64Max) :
    unit_dispatch [u] v = some (Except.ok (v * (mult : Int))) := by
  simp only [List.mem_cons, List.mem_singleton, List.not_mem_nil, or_false,
    Prod.mk.injEq] at htab
  unfold i64Max at hb
  rcases htab with ⟨rfl, rfl⟩ | ⟨rfl, rfl⟩ | ⟨rfl, rfl⟩ | ⟨rfl, rfl⟩ | ⟨rfl, rfl⟩ <;>
    push_cast at hb ⊢ <;>
    simp only [unit_dispatch, Duration.seconds, Duration.minutes, Duration.hours,
      Duration.days, Duration.weeks, checked_mul, i64Max, i64Min]
  all_goals rw [if_pos (by constructor <;> linarith)]
  all_goals try simp only [Option.some_bind]
  all_goals try rw [if_pos (by constructor <;> linarith)]
  all_goals simp

/-- Counterexample to claim C1: not *every* non-negative integer round-trips:
for n = 10^19 (which exceeds `i64::MAX`) the parser returns the overflow
error, not a duration of magnitude n. -/
theorem C1_counterexample_overflow :
    parse_time_adjustment "10000000000000000000s" =
      some (Except.error "Invalid number: number too large to fit in target type") ∧
    parse_time_adjustment "10000000000000000000s" ≠
      some (Except.ok (10000000000000000000 : Int)) := by
  constructor
  · rfl
  · intro h
    rw [show parse_time_adjustment "10000000000000000000s" =
      some (Except.error "Invalid number: number too large to fit in target type")
      from rfl] at h
    simp at h

/-- Claim C1 as amended: for every magnitude n whose duration fits chrono's
bound (n scaled to milliseconds at most `i64::MAX`), writing n in decimal
digits `ds`, `parse_time_adjustment` maps `"{n}{u}"` to the duration of
magnitude n in unit u and `"-{n}{u}"` to its negation; and for *every*
magnitude, `"+{n}{u}"` parses exactly like the unsigned form.  The unit table
pairs each unit character with its length in seconds. -/
theorem C1_sign_magnitude_amended (n : Nat) (ds : List Char) (u : Char) (mult : Nat)
    (hne : ds ≠ []) (hds : ∀ c ∈ ds, c.isDigit = true) (hval : digitsToNat ds = n)
    (htab : (u, mult) ∈ ([('s', 1), ('m', 60), ('h', 3600), ('d', 86400),
      ('w', 604800)] : List (Char × Nat))) :
    (n * mult * 1000 ≤ i64MaxNat →
      parse_time_adjustment (String.mk (ds ++ [u])) =
        some (Except.ok ((n : Int) * (mult : Int))) ∧
      parse_time_adjustment (String.mk ('-' :: (ds ++ [u]))) =
        some (Except.ok (-((n : Int) * (mult : Int))))) ∧
    parse_time_adjustment (String.mk ('+' :: (ds ++ [u]))) =
      parse_time_adjustment (String.mk (ds ++ [u])) := by
  have hu : u.isDigit = false := by
    simp only [List.mem_cons, List.mem_singleton, List.not_mem_nil, or_false,
      Prod.mk.injEq] at htab
    rcases htab with ⟨rfl, h⟩ | ⟨rfl, h⟩ | ⟨rfl, h⟩ | ⟨rfl, h⟩ | ⟨rfl, h⟩ <;> decide
  obtain ⟨h1, h2, h3⟩ := parse_spine ds u hne hds hu
  refine ⟨?_, h3⟩
  intro hbound
  subst hval
  have hmult : 1 ≤ mult := by
    simp only [List.mem_cons, List.mem_singleton, List.not_mem_nil, or_false,
      Prod.mk.injEq] at htab
    rcases htab with ⟨h, rfl⟩ | ⟨h, rfl⟩ | ⟨h, rfl⟩ | ⟨h, rfl⟩ | ⟨h, rfl⟩ <;> decide
  have hn : digitsToNat ds ≤ i64MaxNat := by
    refine le_trans ?_ hbound
    calc digitsToNat ds = digitsToNat ds * 1 := (Nat.mul_one _).symm
    _ ≤ digitsToNat ds * mult := Nat.mul_le_mul_left _ hmult
    _ = digitsToNat ds * mult * 1 := (Nat.mul_one _).symm
    _ ≤ digitsToNat ds * mult * 1000 := Nat.mul_le_mul_left _ (by omega)
  have hpi : parse_i64 ds = some ((digitsToNat ds : Int)) := by
    unfold parse_i64
    rw [if_pos hn]
  have hcast : ((digitsToNat ds : Int)) * (mult : Int) * 1000 ≤ i64Max := by
    unfold i64Max
    unfold i64MaxNat at hbound
    exact_mod_cast hbound
  have hpos : (0 : Int) ≤ ((digitsToNat ds : Int)) * (mult : Int) * 1000 := by positivity
  have hb : -i64Max ≤ ((digitsToNat ds : Int)) * (mult : Int) * 1000 ∧
      ((digitsToNat ds : Int)) * (mult : Int) * 1000 ≤ i64Max := by
    refine ⟨?_, hcast⟩
    have : (-i64Max : Int) ≤ 0 := by unfold i64Max; norm_num
    linarith
  have hbneg : -i64Max ≤ (-(digitsToNat ds : Int)) * (mult : Int) * 1000 ∧
      (-(digitsToNat ds : Int)) * (mult : Int) * 1000 ≤ i64Max := by
    have hrw : (-(digitsToNat ds : Int)) * (mult : Int) * 1000 =
        -(((digitsToNat ds : Int)) * (mult : Int) * 1000) := by ring
    rw [hrw]
    have : (-i64Max : Int) ≤ 0 := by unfold i64Max; norm_num
    constructor <;> linarith [hcast, hpos]
  constructor
  · rw [h1, hpi]
    exact unit_dispatch_ok u mult htab _ hb
  · rw [h2, hpi]
    have := unit_dispatch_ok u mult htab (-(digitsToNat ds : Int)) hbneg
    rw [show (-(digitsToNat ds : Int)) * (mult : Int) =
      -((digitsToNat ds : Int) * (mult : Int)) by ring] at this
    exact this

/-- Closed witness for the amended claim C1 at n = 3 with unit s:
`"3s"` parses to +3 seconds, `"-3s"` to -3 seconds, and `"+3s"` parses like
`"3s"`. -/
theorem C1_sign_magnitude_amended_witness :
    parse_time_adjustment (String.mk (['3'] ++ ['s'])) =
      some (Except.ok ((3 : Int) * ((1 : Nat) : Int))) ∧
    parse_time_adjustment (String.mk ('-' :: (['3'] ++ ['s']))) =
      some (Except.ok (-((3 : Int) * ((1 : Nat) : Int)))) ∧
    parse_time_adjustment (String.mk ('+' :: (['3'] ++ ['s']))) =
      parse_time_adjustment (String.mk (['3'] ++ ['s'])) := by
  obtain ⟨h, h3⟩ := C1_sign_magnitude_amended 3 ['3'] 's' 1 (by decide) (by decide)
    (by decide) (by decide)
  obtain ⟨h1, h2⟩ := h (by decide)
  exact ⟨h1, h2, h3⟩

theorem unit_dispatch_panic (u : Char) (mult : Nat)
    (htab : (u, mult) ∈ ([('s', 1), ('m', 60), ('h', 3600), ('d', 86400),
      ('w', 604800)] : List (Char × Nat)))
    (v : Int) (_hv : 0 ≤ v) (hover : i64Max < v * (mult : Int) * 1000) :
    unit_dispatch [u] v = none := by
  simp only [List.mem_cons, List.mem_singleton, List.not_mem_nil, or_false,
    Prod.mk.injEq] at htab
  unfold i64Max at hover
  rcases htab with ⟨rfl, rfl⟩ | ⟨rfl, rfl⟩ | ⟨rfl, rfl⟩ | ⟨rfl, rfl⟩ | ⟨rfl, rfl⟩ <;>
    push_cast at hover <;>
    simp only [unit_dispatch, Duration.seconds, Duration.minutes, Duration.hours,
      Duration.days, Duration.weeks, checked_mul, i64Max, i64Min] <;>
    split_ifs <;> simp_all <;> linarith

/-- Counterexample to claim C3: the input `"9223372036854776s"` has a digit
run that parses as a signed 64-bit integer, yet the program does not return
`Ok`: chrono's `Duration::seconds` panics because the value exceeds
`i64::MAX` milliseconds.  (`none` models the panic.) -/
theorem C3_counterexample_panic :
    parse_time_adjustment "9223372036854776s" = none ∧
    digitsToNat "9223372036854776".data ≤ i64MaxNat := by
  exact ⟨rfl, by decide⟩

/-- Claim C3 as amended: `parse_time_adjustment` never panics *except* in
chrono's duration constructors: a digit run exceeding `i64::MAX` yields the
"invalid number" error; a digit run that fits an `i64` but whose duration
exceeds chrono's bound of `i64::MAX` milliseconds panics; and a digit run
whose duration is within the bound yields an `Ok` duration. -/
theorem C3_totality_amended (ds : List Char) (u : Char) (mult : Nat)
    (hne : ds ≠ []) (hds : ∀ c ∈ ds, c.isDigit = true)
    (htab : (u, mult) ∈ ([('s', 1), ('m', 60), ('h', 3600), ('d', 86400),
      ('w', 604800)] : List (Char × Nat))) :
    (i64MaxNat < digitsToNat ds →
      parse_time_adjustment (String.mk (ds ++ [u])) =
        some (Except.error "Invalid number: number too large to fit in target type")) ∧
    (digitsToNat ds ≤ i64MaxNat → i64MaxNat < digitsToNat ds * mult * 1000 →
      parse_time_adjustment (String.mk (ds ++ [u])) = none) ∧
    (digitsToNat ds * mult * 1000 ≤ i64MaxNat →
      ∃ d : Duration, parse_time_adjustment (String.mk (ds ++ [u])) =
        some (Except.ok d)) := by
  have hu : u.isDigit = false := by
    simp only [List.mem_cons, List.mem_singleton, List.not_mem_nil, or_false,
      Prod.mk.injEq] at htab
    rcases htab with ⟨rfl, h⟩ | ⟨rfl, h⟩ | ⟨rfl, h⟩ | ⟨rfl, h⟩ | ⟨rfl, h⟩ <;> decide
  have hmult : 1 ≤ mult := by
    simp only [List.mem_cons, List.mem_singleton, List.not_mem_nil, or_false,
      Prod.mk.injEq] at htab
    rcases htab with ⟨h, rfl⟩ | ⟨h, rfl⟩ | ⟨h, rfl⟩ | ⟨h, rfl⟩ | ⟨h, rfl⟩ <;> decide
  obtain ⟨h1, h2, h3⟩ := parse_spine ds u hne hds hu
  refine ⟨?_, ?_, ?_⟩
  · intro hover
    have hpi : parse_i64 ds = none := by
      unfold parse_i64
      rw [if_neg (by omega)]
    rw [h1, hpi]
  · intro hle hover
    have hpi : parse_i64 ds = some ((digitsToNat ds : Int)) := by
      unfold parse_i64
      rw [if_pos hle]
    rw [h1, hpi]
    have hover2 : i64Max < ((digitsToNat ds : Int)) * (mult : Int) * 1000 := by
      unfold i64Max
      unfold i64MaxNat at hover
      exact_mod_cast hover
    exact unit_dispatch_panic u mult htab _ (by positivity) hover2
  · intro hbound
    have hn : digitsToNat ds ≤ i64MaxNat := by
      refine le_trans ?_ hbound
      calc digitsToNat ds = digitsToNat ds * 1 := (Nat.mul_one _).symm
      _ ≤ digitsToNat ds * mult := Nat.mul_le_mul_left _ hmult
      _ = digitsToNat ds * mult * 1 := (Nat.mul_one _).symm
      _ ≤ digitsToNat ds * mult * 1000 := Nat.mul_le_mul_left _ (by omega)
    have hpi : parse_i64 ds = some ((digitsToNat ds : Int)) := by
      unfold parse_i64
      rw [if_pos hn]
    have hcast : ((digitsToNat ds : Int)) * (mult : Int) * 1000 ≤ i64Max := by
      unfold i64Max
      unfold i64MaxNat at hbound
      exact_mod_cast hbound
    have hpos : (0 : Int) ≤ ((digitsToNat ds : Int)) * (mult : Int) * 1000 := by positivity
    refine ⟨(digitsToNat ds : Int) * (mult : Int), ?_⟩
    rw [h1, hpi]
    refine unit_dispatch_ok u mult htab _ ⟨?_, hcast⟩
    have : (-i64Max : Int) ≤ 0 := by unfold i64Max; norm_num
    linarith

/-- Closed witness for the amended claim C3: the digit run of
`"9223372036854776s"` fits an `i64` but its duration is out of chrono's
bound, so the run panics rather than returning. -/
theorem C3_totality_amended_witness :
    parse_time_adjustment (String.mk ("9223372036854776".data ++ ['s'])) = none :=
  (C3_totality_amended "9223372036854776".data 's' 1 (by decide) (by decide)
    (by decide)).2.1 (by decide) (by decide)

theorem parse_nosign (r : List Char) (hm : r.head? ≠ some '-')
    (hp : r.head? ≠ some '+') (hne : r.filter (fun c => c.isDigit) ≠ []) :
    parse_time_adjustment (String.mk r) =
      (match parse_i64 (r.filter (fun c => c.isDigit)) with
       | none => some (Except.error "Invalid number: number too large to fit in target type")
       | some v => unit_dispatch (r.filter (fun c => !c.isDigit)) v) := by
  have hrne : r ≠ [] := by
    intro h
    subst h
    exact hne rfl
  have hstrip : strip_sign r = (false, r) := by
    unfold strip_sign
    rw [if_neg hm, if_neg hp]
  unfold parse_time_adjustment
  rw [if_neg (by simpa using hrne)]
  simp only [hstrip]
  rw [if_neg hne]
  cases hp2 : parse_i64 (r.filter (fun c => c.isDigit)) <;> simp [hp2]

/-- Counterexample to claim C6: the parser does not use a leading-run and
trailing-run decomposition.  For `"s5"` the maximal *leading* digit run is
empty, so the claim requires the missing-numeric-part error, yet the parser
succeeds with magnitude 5; for `"1s2"` the leading digit run is `"1"`, yet
the parsed magnitude is 12. -/
theorem C6_counterexample_interleaved :
    parse_time_adjustment "s5" = some (Except.ok (5 : Int)) ∧
    "s5".data.takeWhile (fun c => c.isDigit) = [] ∧
    parse_time_adjustment "1s2" = some (Except.ok (12 : Int)) ∧
    "1s2".data.takeWhile (fun c => c.isDigit) = ['1'] := by
  exact ⟨rfl, by decide, rfl, by decide⟩

/-- Claim C6 as amended: after stripping the optional sign, the parser
partitions the remaining characters into the subsequence of *all* digit
characters in order (the magnitude) and the subsequence of *all* non-digit
characters in order (the unit token), regardless of interleaving: two
sign-free inputs with the same digit subsequence (non-empty) and the same
non-digit subsequence parse identically; in particular `"s5"` is 5 seconds
and `"1s2"` is 12 seconds. -/
theorem C6_partition_amended :
    (∀ r r' : List Char,
      r.head? ≠ some '-' → r.head? ≠ some '+' →
      r'.head? ≠ some '-' → r'.head? ≠ some '+' →
      r.filter (fun c => c.isDigit) = r'.filter (fun c => c.isDigit) →
      r.filter (fun c => !c.isDigit) = r'.filter (fun c => !c.isDigit) →
      r.filter (fun c => c.isDigit) ≠ [] →
      parse_time_adjustment (String.mk r) = parse_time_adjustment (String.mk r')) ∧
    parse_time_adjustment "s5" = some (Except.ok (5 : Int)) ∧
    parse_time_adjustment "1s2" = some (Except.ok (12 : Int)) := by
  refine ⟨?_, rfl, rfl⟩
  intro r r' hm hp hm' hp' hdig hnon hne
  have hne' : r'.filter (fun c => c.isDigit) ≠ [] := by
    rw [← hdig]
    exact hne
  rw [parse_nosign r hm hp hne, parse_nosign r' hm' hp' hne', hdig, hnon]

/-- Closed witness for the amended claim C6: `"1s2"` and `"12s"` have the
same digit and non-digit subsequences, hence parse identically. -/
theorem C6_partition_amended_witness :
    parse_time_adjustment (String.mk ['1', 's', '2']) =
      parse_time_adjustment (String.mk ['1', '2', 's']) :=
  C6_partition_amended.1 ['1', 's', '2'] ['1', '2', 's'] (by decide) (by decide)
    (by decide) (by decide) (by decide) (by decide) (by decide)

theorem adjust_error_message_ne (e : String) :
    "Error in time adjustment: " ++ e ≠ "Invalid timezone" := by
  intro h
  have hlen := congrArg String.length h
  rw [String.length_append] at hlen
  have h1 : ("Error in time adjustment: " : String).length = 26 := rfl
  have h2 : ("Invalid timezone" : String).length = 16 := rfl
  omega

theorem tz_offset_invalid (tz : String) (h1 : tz ≠ "UTC") (h2 : tz ≠ "JST") :
    tz_offset tz = none := by
  unfold tz_offset
  split <;> simp_all

/-- Claim C9: a timezone argument outside {UTC, JST} makes the program print
"Invalid timezone" and exit with status 1 (for any timestamp in range, any
format, with no adjustment given); and with timezone "UTC" or "JST" the
"Invalid timezone" exit can never happen, whatever the other arguments. -/
theorem C9_timezone_validation :
    (∀ (tz : String) (ts now : Int) (fmt : Option String) (copy : Bool),
      tz ∉ (["UTC", "JST"] : List String) →
      MIN_TS ≤ ts ∧ ts ≤ MAX_TS →
      main_run { timestamp := some ts, timezone := tz, copy := copy,
                 format := fmt, adjust := none } now =
        some (RunResult.exit1 "Invalid timezone")) ∧
    (∀ (args : Args) (now : Int),
      args.timezone = "UTC" ∨ args.timezone = "JST" →
      main_run args now ≠ some (RunResult.exit1 "Invalid timezone")) := by
  constructor
  · intro tz ts now fmt copy htz hts
    simp only [List.mem_cons, List.not_mem_nil, or_false, not_or] at htz
    obtain ⟨h1, h2⟩ := htz
    simp only [main_run, main_after_instant, main_after_adjust]
    rw [if_pos hts, tz_offset_invalid tz h1 h2]
  · intro args now htz
    have hoff : ∃ off : Int, tz_offset args.timezone = some off := by
      rcases htz with h | h <;> rw [h] <;> exact ⟨_, rfl⟩
    obtain ⟨off, hoff⟩ := hoff
    have hafter : ∀ dt : Int, main_after_adjust args dt ≠
        some (RunResult.exit1 "Invalid timezone") := by
      intro dt
      unfold main_after_adjust
      rw [hoff]
      simp
    have hinstant : ∀ dt : Int, main_after_instant args dt ≠
        some (RunResult.exit1 "Invalid timezone") := by
      intro dt hcon
      unfold main_after_instant at hcon
      rcases hadj : args.adjust with _ | a
      · rw [hadj] at hcon
        exact hafter dt hcon
      · simp only [hadj] at hcon
        rcases hpar : parse_time_adjustment a with _ | r
        · simp only [hpar] at hcon
          simp at hcon
        · rcases r with e | d
          · simp only [hpar] at hcon
            simp only [Option.some.injEq, RunResult.exit1.injEq] at hcon
            exact adjust_error_message_ne e hcon
          · simp only [hpar] at hcon
            by_cases hr : MIN_TS ≤ dt + d ∧ dt + d ≤ MAX_TS
            · rw [if_pos hr] at hcon
              exact hafter (dt + d) hcon
            · rw [if_neg hr] at hcon
              simp at hcon
    intro hcon
    unfold main_run at hcon
    rcases hts : args.timestamp with _ | dt
    · rw [hts] at hcon
      exact hinstant now hcon
    · simp only [hts] at hcon
      by_cases hr : MIN_TS ≤ dt ∧ dt ≤ MAX_TS
      · rw [if_pos hr] at hcon
        exact hinstant dt hcon
      · rw [if_neg hr] at hcon
        simp only [Option.some.injEq, RunResult.exit1.injEq] at hcon
        have : ("Invalid timestamp" : String).data = ("Invalid timezone" : String).data :=
          congrArg String.data hcon
        simp at this

/-- Closed witness for claim C9: timezone "PST" at timestamp 0 exits with
"Invalid timezone". -/
theorem C9_timezone_validation_witness :
    main_run { timestamp := some 0, timezone := "PST", copy := true,
               format := none, adjust := none } 0 =
      some (RunResult.exit1 "Invalid timezone") :=
  C9_timezone_validation.1 "PST" 0 0 none true (by decide) (by decide)
